import Mathlib

/-!
Shallow embedding of the `whatsapp-notifier` repository (two Python source
files: `monitor.py` and `netlify/functions/send_alert.py`) together with
proofs of the specification claims.

Modelling conventions:
* Environment variables are `Option String`; Python truthiness of such a
  value (`if not X`) is the predicate `truthy` below (`None` and `""` are
  both falsy).
* Timestamps are seconds since the Unix epoch as `Nat`; `strftime` with the
  pattern `%Y-%m-%d %H:%M:%S` is implemented as `fmtTimestamp` using the
  standard civil-from-days calendar algorithm.
* Network effects are oracles passed in as parameters: `probeFn` maps a URL
  to `some statusCode` (a response was received) or `none` (any
  network-level failure, i.e. `requests.exceptions.RequestException`);
  the Twilio delivery call is a function into `Except`, where `Except.error`
  stands for a raised exception.
* Every externally visible action of a run is recorded in a `List Call`
  trace, so that claims about "performs no tracker call", "never probes",
  "sends exactly one notification" are statements about the trace.
* Python functions that catch every exception (`send_whatsapp_notification`,
  the Netlify `handler`) are embedded as total functions: a normal return is
  a value, a propagated exception would have been an `Except.error` result
  type, which these functions deliberately do not have.
-/

/-- Python truthiness of an optional environment string: `None` and the
empty string are falsy, any other string is truthy. -/
def truthy : Option String → Bool
  | none => false
  | some s => !s.isEmpty

/-- Trace of externally visible calls made during a run of `monitor.py`'s
main block. `notify` records an invocation of `send_whatsapp_notification`
with the given body; `twilioSend` records the actual messaging-client call
inside it. -/
inductive Call where
  | getRepo : Call
  | probeUrl : String → Call
  | listIssues : Call
  | createIssue : String → String → Call
  | addIssueComment : Nat → String → Call
  | closeIssue : Nat → Call
  | notify : String → Call
  | twilioSend : String → Call
deriving DecidableEq, Repr

/-- `monitor.py` line 24: the canonical incident title. -/
def DOWNTIME_ISSUE_TITLE : String := "Automated Alert: A Website Page is DOWN"

/-- `monitor.py` lines 18-23: the fixed ordered list of monitored URLs. -/
def WEBSITES_TO_CHECK : List String :=
  [ "https://www.apollohospitals.com/"
  , "https://www.apollohospitals.com/doctors/"
  , "https://www.apollohospitals.com/health-library"
  , "https://www.apollohospitals.com/centres-of-excellence" ]

/-- One probe counts as success iff a response was received and its status
code is in [200,300) — the per-URL test of `check_system_status`
(`monitor.py` lines 37-44). -/
def probeOk (probeFn : String → Option Nat) (url : String) : Bool :=
  match probeFn url with
  | some code => decide (200 ≤ code) && decide (code < 300)
  | none => false

/-- `monitor.py` lines 27-47, `check_system_status(urls)`: walk the URLs in
order; on the first URL whose response status is outside [200,300) or whose
request raises, return `(false, some url)` without touching later URLs; if
every URL succeeds return `(true, none)`. The second component of the result
is the trace of URLs actually probed, in order. -/
def check_system_status (probeFn : String → Option Nat) :
    List String → (Bool × Option String) × List Call
  | [] => ((true, none), [])
  | url :: rest =>
    match probeFn url with
    | some code =>
      if 200 ≤ code ∧ code < 300 then
        let r := check_system_status probeFn rest
        (r.1, Call.probeUrl url :: r.2)
      else ((false, some url), [Call.probeUrl url])
    | none => ((false, some url), [Call.probeUrl url])

/-- Result of `send_whatsapp_notification`: the function always returns
normally; this value records which of the three source paths was taken
(credentials missing / message created / exception caught). -/
inductive SendOutcome where
  | skipped : SendOutcome
  | delivered : String → SendOutcome
  | failed : String → SendOutcome
deriving DecidableEq, Repr

/-- `monitor.py` lines 49-63, `send_whatsapp_notification(message_body)`:
if either Twilio credential is falsy, print a skip notice and return;
otherwise call the messaging client inside a `try`, catching any exception.
The function is total — no path raises. The trace component records the
messaging-client call when one is made. -/
def send_whatsapp_notification (sid tok : Option String)
    (deliver : String → Except String String) (message_body : String) :
    SendOutcome × List Call :=
  if truthy sid && truthy tok then
    match deliver message_body with
    | Except.ok msgSid => (SendOutcome.delivered msgSid, [Call.twilioSend message_body])
    | Except.error e => (SendOutcome.failed e, [Call.twilioSend message_body])
  else
    (SendOutcome.skipped, [])

/-- Python's `str.strip()`: drop whitespace characters from both ends.
Implemented structurally (rather than with `String.trim`, whose auxiliary
functions use well-founded recursion) so concrete inputs evaluate inside
proofs. -/
def pyStrip (s : String) : String :=
  String.mk (((s.data.dropWhile Char.isWhitespace).reverse.dropWhile
    Char.isWhitespace).reverse)

/-- `monitor.py` lines 65-77, `format_downtime(duration_seconds)`: the
seconds (already truncated to a whole number by `int(...)`) are decomposed
by `divmod` into days, hours, minutes, seconds; each of the first three is
rendered only when nonzero, seconds always; pieces carry a trailing space
and the final string is stripped. -/
def format_downtime (duration_seconds : Nat) : String :=
  let seconds := duration_seconds
  let days := seconds / 86400
  let rem := seconds % 86400
  let hours := rem / 3600
  let rem2 := rem % 3600
  let minutes := rem2 / 60
  let secs := rem2 % 60
  let s1 := if days > 0 then toString days ++ "d " else ""
  let s2 := if hours > 0 then toString hours ++ "h " else ""
  let s3 := if minutes > 0 then toString minutes ++ "m " else ""
  pyStrip (s1 ++ s2 ++ s3 ++ (toString secs ++ "s"))

/-- The downtime format as the specification words it: decompose into days,
hours, minutes, seconds largest unit first; keep only the nonzero units
except seconds which is always kept; join with single spaces; trim
whitespace. Written from the spec's sentence, to be compared with the
source's `format_downtime`. -/
def format_downtime_spec (duration_seconds : Nat) : String :=
  let days := duration_seconds / 86400
  let hours := duration_seconds % 86400 / 3600
  let minutes := duration_seconds % 3600 / 60
  let secs := duration_seconds % 60
  let units :=
    (if days > 0 then [toString days ++ "d"] else []) ++
    (if hours > 0 then [toString hours ++ "h"] else []) ++
    (if minutes > 0 then [toString minutes ++ "m"] else []) ++
    [toString secs ++ "s"]
  pyStrip (String.intercalate " " units)

/-- Civil date (year, month, day) from a count of days since 1970-01-01,
the standard era-based calendar algorithm, used to implement `strftime`. -/
def civilFromDays (z : Nat) : Nat × Nat × Nat :=
  let z' := z + 719468
  let era := z' / 146097
  let doe := z' % 146097
  let yoe := (doe - doe / 1460 + doe / 36524 - doe / 146096) / 365
  let y := yoe + era * 400
  let doy := doe - (365 * yoe + yoe / 4 - yoe / 100)
  let mp := (5 * doy + 2) / 153
  let d := doy - (153 * mp + 2) / 5 + 1
  let m := if mp < 10 then mp + 3 else mp - 9
  (if m ≤ 2 then y + 1 else y, m, d)

/-- Zero-pad a number to two digits (`strftime` fields `%m %d %H %M %S`). -/
def pad2 (n : Nat) : String :=
  if n < 10 then "0" ++ toString n else toString n

/-- Zero-pad a year to four digits (`strftime` field `%Y`). -/
def pad4 (n : Nat) : String :=
  if n < 10 then "000" ++ toString n
  else if n < 100 then "00" ++ toString n
  else if n < 1000 then "0" ++ toString n
  else toString n

/-- `strftime('%Y-%m-%d %H:%M:%S')` on a timestamp given as seconds since
the Unix epoch. -/
def fmtTimestamp (t : Nat) : String :=
  let days := t / 86400
  let secs := t % 86400
  let ymd := civilFromDays days
  pad4 ymd.1 ++ "-" ++ pad2 ymd.2.1 ++ "-" ++ pad2 ymd.2.2 ++ " " ++
    pad2 (secs / 3600) ++ ":" ++ pad2 (secs % 3600 / 60) ++ ":" ++ pad2 (secs % 60)

/-- `monitor.py` line 99: `ist_offset = timedelta(hours=5, minutes=30)`,
as seconds. -/
def ist_offset : Nat := 5 * 3600 + 30 * 60

/-- Rendering of an optional string inside a Python f-string: `None` prints
as `"None"`. Only reachable in the embedding on the (dead) path where
`check_system_status` reports unhealthy without a failing URL. -/
def pyStr : Option String → String
  | some s => s
  | none => "None"

/-- A GitHub issue as the reconciliation logic sees it.
Modelled from the spec: the issue-tracker client is an external
collaborator; §6 gives its contract (`title`, `number`, `createdAt (UTC)`,
open/closed state, body, comments). -/
structure Issue where
  number : Nat
  title : String
  body : String
  createdAt : Nat
  isOpen : Bool
  comments : List String
deriving DecidableEq, Repr

/-- `monitor.py` lines 79-87, `manage_downtime_issue(repo)`: list the open
issues and return the first whose title equals `DOWNTIME_ISSUE_TITLE`, or
`None` if there is none. -/
def manage_downtime_issue (repo : List Issue) : Option Issue :=
  (repo.filter (fun i => i.isOpen)).find? (fun i => i.title == DOWNTIME_ISSUE_TITLE)

/-- Modelled from the spec: the tracker's `addComment(incident, text)` —
append the comment to the issue with the given number. -/
def trackerAddComment (repo : List Issue) (num : Nat) (text : String) : List Issue :=
  repo.map (fun i => if i.number == num then
    { i with comments := i.comments ++ [text] } else i)

/-- Modelled from the spec: the tracker's `closeIssue(incident)` —
transition the issue with the given number to closed. -/
def trackerCloseIssue (repo : List Issue) (num : Nat) : List Issue :=
  repo.map (fun i => if i.number == num then { i with isOpen := false } else i)

/-- Modelled from the spec: the tracker's `createIssue(repo, title, body)` —
append a fresh open issue with a tracker-assigned number and the creation
timestamp of the moment of the call. -/
def trackerCreateIssue (repo : List Issue) (title body : String) (now : Nat) :
    List Issue :=
  repo ++ [{ number := (repo.map Issue.number).foldr max 0 + 1
           , title := title, body := body, createdAt := now
           , isOpen := true, comments := [] }]

/-- `monitor.py` lines 111-117: the "recovered" WhatsApp message. Both
displayed timestamps are the UTC values shifted by `ist_offset`; the
downtime string is computed from the difference of the UTC values. -/
def recovery_message (down_at_utc up_at_utc : Nat) : String :=
  "✅ **System is UP!** ✅\n\n" ++
  "All monitored pages are now online.\n\n" ++
  "The system first went down at: *" ++ fmtTimestamp (down_at_utc + ist_offset) ++ " IST*\n" ++
  "The system recovered at: *" ++ fmtTimestamp (up_at_utc + ist_offset) ++ " IST*\n\n" ++
  "Total Downtime: *" ++ format_downtime (up_at_utc - down_at_utc) ++ "*"

/-- `monitor.py` line 120: the resolution comment; its timestamp is the UTC
recovery time, not shifted. -/
def resolution_comment (up_at_utc : Nat) : String :=
  "Resolved: The system came back online at " ++ fmtTimestamp up_at_utc ++ " UTC."

/-- `monitor.py` lines 131-135: the "down" WhatsApp message, naming the
failing URL and the failure time shifted by `ist_offset`. -/
def down_message (failing_url : String) (now_utc : Nat) : String :=
  "🚨 **Website Page is DOWN!** 🚨\n\n" ++
  "The following page is not responding:\n*" ++ failing_url ++ "*\n\n" ++
  "Time of failure: *" ++ fmtTimestamp (now_utc + ist_offset) ++ " IST*"

/-- `monitor.py` line 139: the body of a newly created downtime issue,
naming the failing URL and the UTC failure time. -/
def down_issue_body (failing_url : String) (now_utc : Nat) : String :=
  "The monitor detected that the page `" ++ failing_url ++ "` went down at " ++
    fmtTimestamp now_utc ++ " UTC."

/-- `monitor.py` lines 89-143, the `__main__` block: if the GitHub token is
falsy, print and stop; otherwise fetch the repository, probe all websites,
look up the open downtime issue by exact title, and act on the 2x2 decision
table. Returns the final tracker state and the trace of external calls in
source order. -/
def runMonitor (githubToken sid tok : Option String)
    (deliver : String → Except String String) (probeFn : String → Option Nat)
    (repo : List Issue) (now : Nat) : List Issue × List Call :=
  if truthy githubToken then
    let probe := check_system_status probeFn WEBSITES_TO_CHECK
    let downtime_issue := manage_downtime_issue repo
    let baseCalls := Call.getRepo :: probe.2 ++ [Call.listIssues]
    match probe.1.1, downtime_issue with
    | true, some issue =>
        let msg := recovery_message issue.createdAt now
        let send := send_whatsapp_notification sid tok deliver msg
        let cmt := resolution_comment now
        (trackerCloseIssue (trackerAddComment repo issue.number cmt) issue.number,
         baseCalls ++ [Call.notify msg] ++ send.2 ++
           [Call.addIssueComment issue.number cmt, Call.closeIssue issue.number])
    | true, none => (repo, baseCalls)
    | false, none =>
        let u := pyStr probe.1.2
        let msg := down_message u now
        let send := send_whatsapp_notification sid tok deliver msg
        let body := down_issue_body u now
        (trackerCreateIssue repo DOWNTIME_ISSUE_TITLE body now,
         baseCalls ++ [Call.notify msg] ++ send.2 ++
           [Call.createIssue DOWNTIME_ISSUE_TITLE body])
    | false, some _ => (repo, baseCalls)
  else
    (repo, [])

/-- Is this call a tracker mutation (create, comment, close or edit)? -/
def isTrackerMutation : Call → Bool
  | Call.createIssue _ _ => true
  | Call.addIssueComment _ _ => true
  | Call.closeIssue _ => true
  | _ => false

/-- Is this call a notification action (invoking the notifier or the
messaging client)? -/
def isNotification : Call → Bool
  | Call.notify _ => true
  | Call.twilioSend _ => true
  | _ => false

/-- Is this call an invocation of `send_whatsapp_notification` (one
notification sent, whether or not delivery then happens)? -/
def isNotifyInvocation : Call → Bool
  | Call.notify _ => true
  | _ => false

/-- Number of open issues carrying the canonical downtime title. -/
def countOpenDowntime (repo : List Issue) : Nat :=
  (repo.filter (fun i => i.isOpen && i.title == DOWNTIME_ISSUE_TITLE)).length

/-- The structured `{statusCode, body}` response of the Netlify function
(`send_alert.py` lines 33-42). -/
structure RelayResponse where
  statusCode : Nat
  body : String
deriving DecidableEq, Repr

/-- `send_alert.py` lines 18-23: build the alert message from the webhook
query parameters, with the literal defaults for absent fields; both fields
sit on the final line of the message. -/
def relay_message_body (payload : String → Option String) : String :=
  let monitor_name := (payload "monitorFriendlyName").getD "A monitor"
  let alert_details := (payload "alertDetails").getD "changed status"
  "🚨 Website Alert! 🚨\n\n" ++ monitor_name ++ " " ++ alert_details ++ "."

/-- `send_alert.py` lines 4-42, `handler(event, context)`: read the Twilio
credentials from the environment, build the message from the event's
`queryStringParameters` mapping (defaulting to the empty mapping when the
key is absent), then construct the client and send inside a `try`: any
exception raised by construction or delivery — modelled as an
`Except.error` result of the `twilio` oracle, which receives the
credentials exactly as loaded — yields the 500 response, success the 200
response. Total: no path propagates an exception. -/
def handler (twilio : Option String → Option String → String → Except String String)
    (account_sid auth_token : Option String)
    (event_qsp : Option (String → Option String)) : RelayResponse :=
  let payload := event_qsp.getD (fun _ => none)
  let message_body := relay_message_body payload
  match twilio account_sid auth_token message_body with
  | Except.ok _ => { statusCode := 200, body := "Message sent successfully." }
  | Except.error _ => { statusCode := 500, body := "Failed to send message." }

theorem intercalate_two (a b : String) :
    String.intercalate " " [a, b] = a ++ " " ++ b := rfl

theorem intercalate_three (a b c : String) :
    String.intercalate " " [a, b, c] = a ++ " " ++ b ++ " " ++ c := rfl

theorem intercalate_four (a b c d : String) :
    String.intercalate " " [a, b, c, d] = a ++ " " ++ b ++ " " ++ c ++ " " ++ d := rfl

theorem format_downtime_eq_spec (n : Nat) :
    format_downtime n = format_downtime_spec n := by
  have h1 : n % 86400 % 3600 = n % 3600 := Nat.mod_mod_of_dvd n (by norm_num)
  have h2 : n % 3600 % 60 = n % 60 := Nat.mod_mod_of_dvd n (by norm_num)
  unfold format_downtime format_downtime_spec
  simp only [h1, h2]
  split_ifs <;>
    · apply congrArg
      apply String.ext
      simp [String.intercalate, String.intercalate.go, String.data_append]

/-- C5: `format_downtime` truncates to whole seconds, decomposes into
days/hours/minutes/seconds by integer division largest unit first, renders
only the nonzero units except seconds which is always rendered, joins with
single spaces and trims; in particular `format_downtime 90061 = "1d 1h 1m 1s"`,
`format_downtime 59 = "59s"`, `format_downtime 0 = "0s"` and
`format_downtime 3600 = "1h 0s"` (the zero minutes unit being omitted). -/
theorem c5_format_downtime :
    (∀ n : Nat, format_downtime n = format_downtime_spec n) ∧
    format_downtime 90061 = "1d 1h 1m 1s" ∧
    format_downtime 59 = "59s" ∧
    format_downtime 0 = "0s" ∧
    format_downtime 3600 = "1h 0s" :=
  ⟨format_downtime_eq_spec, by decide, by decide, by decide, by decide⟩

/-- C8: when the GitHub token is absent from the environment, the run
stops right after the log line: the tracker state is untouched and the call
trace is empty — no tracker call, no probe, no messaging call. -/
theorem c8_fatal_precondition (sid tok : Option String)
    (deliver : String → Except String String) (probeFn : String → Option Nat)
    (repo : List Issue) (now : Nat) :
    runMonitor none sid tok deliver probeFn repo now = (repo, []) := rfl

/-- C6: `send_whatsapp_notification` with an absent credential returns the
skip outcome with an empty trace for every possible delivery function (so
no messaging-client call is observable); and when both credentials are
present but the delivery function raises, it returns normally with the
caught-error outcome instead of propagating. -/
theorem c6_notifier_soft_fail (sid tok : Option String) (body e : String) :
    (sid = none ∨ tok = none →
      ∀ deliver : String → Except String String,
        send_whatsapp_notification sid tok deliver body = (SendOutcome.skipped, [])) ∧
    (truthy sid = true → truthy tok = true →
      send_whatsapp_notification sid tok (fun _ => Except.error e) body =
        (SendOutcome.failed e, [Call.twilioSend body])) := by
  constructor
  · intro h deliver
    unfold send_whatsapp_notification
    rcases h with h | h <;> subst h <;> simp [truthy]
  · intro hs ht
    unfold send_whatsapp_notification
    simp [hs, ht]

/-- Witness for C6 at concrete inputs: a missing SID skips with no client
call, and an erroring client is caught as a normal `failed` return. -/
theorem c6_notifier_soft_fail_witness :
    send_whatsapp_notification none (some "TOK") (fun _ => Except.ok "SM1") "hello" =
      (SendOutcome.skipped, []) ∧
    send_whatsapp_notification (some "AC") (some "TOK") (fun _ => Except.error "boom") "hello" =
      (SendOutcome.failed "boom", [Call.twilioSend "hello"]) :=
  ⟨(c6_notifier_soft_fail none (some "TOK") "hello" "boom").1 (Or.inl rfl) _,
   (c6_notifier_soft_fail (some "AC") (some "TOK") "hello" "boom").2 rfl rfl⟩

/-- C7: the relay handler answers 200 when the messaging client delivers
and 500 when it raises, whatever the payload contains; absent payload
fields fall back to the literal defaults `"A monitor"` and
`"changed status"`, and the message's last line carries both fields side by
side. -/
theorem c7_alert_relay
    (twilio : Option String → Option String → String → Except String String)
    (sid tok : Option String) (qsp : Option (String → Option String)) :
    ((∃ s, twilio sid tok (relay_message_body (qsp.getD (fun _ => none))) = Except.ok s) →
      handler twilio sid tok qsp = ⟨200, "Message sent successfully."⟩) ∧
    ((∃ e, twilio sid tok (relay_message_body (qsp.getD (fun _ => none))) = Except.error e) →
      handler twilio sid tok qsp = ⟨500, "Failed to send message."⟩) ∧
    (∀ payload : String → Option String,
      relay_message_body payload =
        "🚨 Website Alert! 🚨\n\n" ++ (payload "monitorFriendlyName").getD "A monitor" ++
          " " ++ (payload "alertDetails").getD "changed status" ++ "." ∧
      (payload "monitorFriendlyName" = none → payload "alertDetails" = none →
        relay_message_body payload = "🚨 Website Alert! 🚨\n\nA monitor changed status.")) := by
  refine ⟨fun ⟨s, hs⟩ => ?_, fun ⟨e, he⟩ => ?_, fun payload => ⟨rfl, fun h1 h2 => ?_⟩⟩
  · simp only [handler, hs]
  · simp only [handler, he]
  · unfold relay_message_body
    rw [h1, h2]
    rfl

/-- Witness for C7 at concrete inputs: a succeeding client yields the 200
response and a raising client the 500 response, on an event with no query
parameters at all, whose message uses both defaults. -/
theorem c7_alert_relay_witness :
    handler (fun _ _ _ => Except.ok "SM1") (some "AC") (some "TOK") none =
      ⟨200, "Message sent successfully."⟩ ∧
    handler (fun _ _ _ => Except.error "boom") (some "AC") (some "TOK") none =
      ⟨500, "Failed to send message."⟩ ∧
    relay_message_body (fun _ => none) = "🚨 Website Alert! 🚨\n\nA monitor changed status." :=
  ⟨(c7_alert_relay (fun _ _ _ => Except.ok "SM1") (some "AC") (some "TOK") none).1 ⟨"SM1", rfl⟩,
   (c7_alert_relay (fun _ _ _ => Except.error "boom") (some "AC") (some "TOK") none).2.1 ⟨"boom", rfl⟩,
   (((c7_alert_relay (fun _ _ _ => Except.ok "SM1") (some "AC") (some "TOK") none).2.2
      (fun _ => none)).2 rfl rfl)⟩

/-- C10: the relay handler is total at its interface — every invocation
returns either the 200 success response or the 500 failure response, never
propagating an exception; and unlike the polling-mode notifier, absent
credentials do not skip-and-succeed: whenever the client pipeline raises on
credential-less construction (as the Twilio client does), the handler
answers 500. -/
theorem c10_relay_totality
    (twilio : Option String → Option String → String → Except String String)
    (sid tok : Option String) (qsp : Option (String → Option String)) :
    (handler twilio sid tok qsp = ⟨200, "Message sent successfully."⟩ ∨
      handler twilio sid tok qsp = ⟨500, "Failed to send message."⟩) ∧
    ((sid = none ∨ tok = none) →
      (∀ s t b, s = none ∨ t = none → ∃ e, twilio s t b = Except.error e) →
      handler twilio sid tok qsp = ⟨500, "Failed to send message."⟩) := by
  constructor
  · simp only [handler]
    cases twilio sid tok (relay_message_body (qsp.getD (fun _ => none))) with
    | ok s => exact Or.inl rfl
    | error e => exact Or.inr rfl
  · intro hcred hraises
    obtain ⟨e, he⟩ := hraises sid tok (relay_message_body (qsp.getD (fun _ => none))) hcred
    simp only [handler, he]

/-- Witness for C10 at concrete inputs: with a client model that raises
exactly when a credential is missing, an event arriving while `ACCOUNT_SID`
is unset produces the 500 response. -/
theorem c10_relay_totality_witness :
    handler (fun s t _ => if s.isNone || t.isNone then Except.error "no creds"
        else Except.ok "SM1") none (some "TOK") none =
      ⟨500, "Failed to send message."⟩ :=
  (c10_relay_totality
      (fun s t _ => if s.isNone || t.isNone then Except.error "no creds" else Except.ok "SM1")
      none (some "TOK") none).2 (Or.inl rfl)
    (fun s t b h => ⟨"no creds", by rcases h with h | h <;> subst h <;> simp⟩)

theorem check_all_ok (probeFn : String → Option Nat) (targets : List String)
    (h : ∀ u ∈ targets, probeOk probeFn u = true) :
    check_system_status probeFn targets = ((true, none), targets.map Call.probeUrl) := by
  induction targets with
  | nil => rfl
  | cons url rest ih =>
    have hu := h url (by simp)
    unfold probeOk at hu
    unfold check_system_status
    cases hc : probeFn url with
    | none => simp [hc] at hu
    | some code =>
      rw [hc] at hu
      dsimp only at hu ⊢
      simp only [Bool.and_eq_true, decide_eq_true_eq] at hu
      rw [if_pos hu]
      simp only [ih (fun u hu' => h u (by simp [hu']))]
      rfl

theorem check_first_fail (probeFn : String → Option Nat) (pre : List String)
    (t : String) (post : List String)
    (hpre : ∀ u ∈ pre, probeOk probeFn u = true) (ht : probeOk probeFn t = false) :
    check_system_status probeFn (pre ++ t :: post) =
      ((false, some t), (pre ++ [t]).map Call.probeUrl) := by
  induction pre with
  | nil =>
    unfold probeOk at ht
    simp only [List.nil_append, List.map_cons, List.map_nil]
    unfold check_system_status
    cases hc : probeFn t with
    | none => rfl
    | some code =>
      rw [hc] at ht
      dsimp only at ht ⊢
      rw [if_neg]
      intro hcond
      simp [hcond.1, hcond.2] at ht
  | cons url rest ih =>
    have hu := hpre url (by simp)
    unfold probeOk at hu
    simp only [List.cons_append, List.map_cons]
    unfold check_system_status
    cases hc : probeFn url with
    | none => simp [hc] at hu
    | some code =>
      rw [hc] at hu
      dsimp only at hu ⊢
      simp only [Bool.and_eq_true, decide_eq_true_eq] at hu
      rw [if_pos hu]
      simp only [ih (fun u hu' => hpre u (by simp [hu']))]

/-- C4: one probe succeeds iff a response arrives with a status in
[200,300) — every network-level failure is down; if every target in the
list succeeds, `check_system_status` returns `(true, none)` having probed
each target in order; and if the target at index `i` is the first to fail,
it returns `(false, targets[i])` having probed exactly the targets up to
and including index `i`, never any later one. -/
theorem c4_check_system_status (probeFn : String → Option Nat)
    (targets : List String) :
    (∀ url, probeOk probeFn url = true ↔
      ∃ code, probeFn url = some code ∧ 200 ≤ code ∧ code < 300) ∧
    ((∀ u ∈ targets, probeOk probeFn u = true) →
      check_system_status probeFn targets = ((true, none), targets.map Call.probeUrl)) ∧
    (∀ (i : Nat) (hi : i < targets.length),
      (∀ j (hj : j < i), probeOk probeFn targets[j] = true) →
      probeOk probeFn targets[i] = false →
      check_system_status probeFn targets =
        ((false, some targets[i]), (targets.take (i + 1)).map Call.probeUrl)) := by
  refine ⟨fun url => ?_, check_all_ok probeFn targets, fun i hi hj ht => ?_⟩
  · unfold probeOk
    cases probeFn url with
    | none => simp
    | some code => simp
  · have hsplit : targets = targets.take i ++ targets[i] :: targets.drop (i + 1) := by
      conv_lhs => rw [← List.take_append_drop i targets]
      rw [List.drop_eq_getElem_cons hi]
    have htake : targets.take (i + 1) = targets.take i ++ [targets[i]] := by
      rw [List.take_succ]
      simp [List.getElem?_eq_getElem hi]
    have hpre : ∀ u ∈ targets.take i, probeOk probeFn u = true := by
      intro u hu
      obtain ⟨j, hlen, rfl⟩ := List.getElem_of_mem hu
      have hji : j < i := by
        have := hlen
        simp [List.length_take] at this
        omega
      rw [List.getElem_take]
      exact hj j hji
    have e1 : check_system_status probeFn targets =
        check_system_status probeFn
          (targets.take i ++ targets[i] :: targets.drop (i + 1)) :=
      congrArg _ hsplit
    rw [e1, htake]
    exact check_first_fail probeFn _ _ _ hpre ht

/-- Witness for C4 at concrete inputs: with a probe oracle failing exactly
on `"b"`, the list `["a", "b", "c"]` yields `(false, "b")` with `"c"` never
probed; with an all-healthy oracle, `["a", "b"]` yields `(true, none)`. -/
theorem c4_check_system_status_witness :
    check_system_status (fun u => if u == "b" then some 404 else some 200) ["a", "b", "c"] =
      ((false, some "b"), [Call.probeUrl "a", Call.probeUrl "b"]) ∧
    check_system_status (fun _ => some 204) ["a", "b"] =
      ((true, none), [Call.probeUrl "a", Call.probeUrl "b"]) := by
  constructor
  · have h3 := (c4_check_system_status (fun u => if u == "b" then some 404 else some 200)
      ["a", "b", "c"]).2.2 1 (by decide)
    exact h3
      (fun j hj => by
        have hj0 : j = 0 := by omega
        subst hj0
        simp only [List.getElem_cons_zero]
        decide)
      (by decide)
  · exact (c4_check_system_status (fun _ => some 204) ["a", "b"]).2.1 (by decide)

theorem runMonitor_noToken (token sid tok : Option String)
    (deliver : String → Except String String) (probeFn : String → Option Nat)
    (repo : List Issue) (now : Nat) (htok : truthy token = false) :
    runMonitor token sid tok deliver probeFn repo now = (repo, []) := by
  simp only [runMonitor, htok, Bool.false_eq_true, if_false]

theorem runMonitor_healthy_found (token sid tok : Option String)
    (deliver : String → Except String String) (probeFn : String → Option Nat)
    (repo : List Issue) (now : Nat) (issue : Issue)
    (htok : truthy token = true)
    (hprobe : (check_system_status probeFn WEBSITES_TO_CHECK).1.1 = true)
    (hfound : manage_downtime_issue repo = some issue) :
    runMonitor token sid tok deliver probeFn repo now =
      (trackerCloseIssue (trackerAddComment repo issue.number (resolution_comment now))
          issue.number,
        Call.getRepo :: (check_system_status probeFn WEBSITES_TO_CHECK).2 ++ [Call.listIssues] ++
              [Call.notify (recovery_message issue.createdAt now)] ++
            (send_whatsapp_notification sid tok deliver (recovery_message issue.createdAt now)).2 ++
          [Call.addIssueComment issue.number (resolution_comment now),
            Call.closeIssue issue.number]) := by
  simp only [runMonitor, htok, hfound, hprobe, if_true]

theorem runMonitor_healthy_none (token sid tok : Option String)
    (deliver : String → Except String String) (probeFn : String → Option Nat)
    (repo : List Issue) (now : Nat)
    (htok : truthy token = true)
    (hprobe : (check_system_status probeFn WEBSITES_TO_CHECK).1.1 = true)
    (hnone : manage_downtime_issue repo = none) :
    runMonitor token sid tok deliver probeFn repo now =
      (repo, Call.getRepo :: (check_system_status probeFn WEBSITES_TO_CHECK).2 ++
        [Call.listIssues]) := by
  simp only [runMonitor, htok, hnone, hprobe, if_true]

theorem runMonitor_down_none (token sid tok : Option String)
    (deliver : String → Except String String) (probeFn : String → Option Nat)
    (repo : List Issue) (now : Nat)
    (htok : truthy token = true)
    (hprobe : (check_system_status probeFn WEBSITES_TO_CHECK).1.1 = false)
    (hnone : manage_downtime_issue repo = none) :
    runMonitor token sid tok deliver probeFn repo now =
      (trackerCreateIssue repo DOWNTIME_ISSUE_TITLE
          (down_issue_body (pyStr (check_system_status probeFn WEBSITES_TO_CHECK).1.2) now) now,
        Call.getRepo :: (check_system_status probeFn WEBSITES_TO_CHECK).2 ++ [Call.listIssues] ++
              [Call.notify (down_message
                (pyStr (check_system_status probeFn WEBSITES_TO_CHECK).1.2) now)] ++
            (send_whatsapp_notification sid tok deliver (down_message
              (pyStr (check_system_status probeFn WEBSITES_TO_CHECK).1.2) now)).2 ++
          [Call.createIssue DOWNTIME_ISSUE_TITLE
            (down_issue_body (pyStr (check_system_status probeFn WEBSITES_TO_CHECK).1.2) now)]) := by
  simp only [runMonitor, htok, hnone, hprobe, if_true]

theorem runMonitor_down_found (token sid tok : Option String)
    (deliver : String → Except String String) (probeFn : String → Option Nat)
    (repo : List Issue) (now : Nat) (issue : Issue)
    (htok : truthy token = true)
    (hprobe : (check_system_status probeFn WEBSITES_TO_CHECK).1.1 = false)
    (hfound : manage_downtime_issue repo = some issue) :
    runMonitor token sid tok deliver probeFn repo now =
      (repo, Call.getRepo :: (check_system_status probeFn WEBSITES_TO_CHECK).2 ++
        [Call.listIssues]) := by
  simp only [runMonitor, htok, hfound, hprobe, if_true]

theorem check_trace_filter (probeFn : String → Option Nat) (p : Call → Bool)
    (hp : ∀ u, p (Call.probeUrl u) = false) (urls : List String) :
    ((check_system_status probeFn urls).2).filter p = [] := by
  induction urls with
  | nil => rfl
  | cons url rest ih =>
    unfold check_system_status
    cases hc : probeFn url with
    | none => simp [hp]
    | some code =>
      dsimp only
      by_cases hcond : 200 ≤ code ∧ code < 300
      · rw [if_pos hcond]
        simp [List.filter_cons, hp, ih]
      · rw [if_neg hcond]
        simp [hp]

theorem send_trace_filter (sid tok : Option String)
    (deliver : String → Except String String) (body : String) (p : Call → Bool)
    (hp : ∀ m, p (Call.twilioSend m) = false) :
    ((send_whatsapp_notification sid tok deliver body).2).filter p = [] := by
  unfold send_whatsapp_notification
  by_cases h : (truthy sid && truthy tok) = true
  · rw [if_pos h]
    cases deliver body <;> simp [hp]
  · rw [if_neg h]
    rfl

theorem filter_length_map_eq {α : Type} (f : α → α) (p : α → Bool)
    (hf : ∀ i, p (f i) = p i) (l : List α) :
    ((l.map f).filter p).length = (l.filter p).length := by
  induction l with
  | nil => rfl
  | cons i rest ih =>
    simp only [List.map_cons, List.filter_cons, hf]
    split <;> simp [ih]

theorem filter_length_map_le {α : Type} (f : α → α) (p : α → Bool)
    (hf : ∀ i, p (f i) = true → p i = true) (l : List α) :
    ((l.map f).filter p).length ≤ (l.filter p).length := by
  induction l with
  | nil => exact Nat.le_refl 0
  | cons i rest ih =>
    simp only [List.map_cons, List.filter_cons]
    by_cases h : p (f i) = true
    · rw [if_pos h, if_pos (hf i h)]
      simpa using ih
    · rw [if_neg h]
      split
      · exact Nat.le_succ_of_le ih
      · exact ih

theorem countOpen_addComment (repo : List Issue) (n : Nat) (c : String) :
    countOpenDowntime (trackerAddComment repo n c) = countOpenDowntime repo := by
  unfold countOpenDowntime trackerAddComment
  exact filter_length_map_eq _ _
    (fun i => by by_cases h : (i.number == n) = true <;> simp [h]) repo

theorem countOpen_close (repo : List Issue) (n : Nat) :
    countOpenDowntime (trackerCloseIssue repo n) ≤ countOpenDowntime repo := by
  unfold countOpenDowntime trackerCloseIssue
  exact filter_length_map_le _ _
    (fun i hi => by
      by_cases h : (i.number == n) = true
      · simp [h] at hi
      · simp [h] at hi
        simp [h, hi]) repo

theorem countOpen_create (repo : List Issue) (body : String) (now : Nat) :
    countOpenDowntime (trackerCreateIssue repo DOWNTIME_ISSUE_TITLE body now) =
      countOpenDowntime repo + 1 := by
  unfold countOpenDowntime trackerCreateIssue
  simp [List.filter_append]

theorem manage_none_count (repo : List Issue)
    (h : manage_downtime_issue repo = none) : countOpenDowntime repo = 0 := by
  unfold manage_downtime_issue at h
  rw [List.find?_eq_none] at h
  unfold countOpenDowntime
  rw [List.length_eq_zero]
  rw [List.filter_eq_nil_iff]
  intro i hi hp
  simp only [Bool.and_eq_true, beq_iff_eq] at hp
  exact absurd (by simp [hp.2] : (i.title == DOWNTIME_ISSUE_TITLE) = true)
    (h i (List.mem_filter.mpr ⟨hi, hp.1⟩))

/-- C9: in the healthy/no-incident quadrant and in the unhealthy/incident-
already-open quadrant, a run leaves the tracker state exactly as it was,
performs no tracker mutation (no create, comment, close or edit) and sends
no notification (neither a notifier invocation nor a messaging-client
call). -/
theorem c9_noop_quadrants (token sid tok : Option String)
    (deliver : String → Except String String) (probeFn : String → Option Nat)
    (repo : List Issue) (now : Nat) :
    ((check_system_status probeFn WEBSITES_TO_CHECK).1.1 = true →
      manage_downtime_issue repo = none →
      (runMonitor token sid tok deliver probeFn repo now).1 = repo ∧
      ((runMonitor token sid tok deliver probeFn repo now).2).filter isTrackerMutation = [] ∧
      ((runMonitor token sid tok deliver probeFn repo now).2).filter isNotification = []) ∧
    ((check_system_status probeFn WEBSITES_TO_CHECK).1.1 = false →
      (∃ issue, manage_downtime_issue repo = some issue) →
      (runMonitor token sid tok deliver probeFn repo now).1 = repo ∧
      ((runMonitor token sid tok deliver probeFn repo now).2).filter isTrackerMutation = [] ∧
      ((runMonitor token sid tok deliver probeFn repo now).2).filter isNotification = []) := by
  have hmut := check_trace_filter probeFn isTrackerMutation (fun u => rfl) WEBSITES_TO_CHECK
  have hnot := check_trace_filter probeFn isNotification (fun u => rfl) WEBSITES_TO_CHECK
  by_cases htok : truthy token = true
  · constructor
    · intro hprobe hnone
      rw [runMonitor_healthy_none token sid tok deliver probeFn repo now htok hprobe hnone]
      refine ⟨rfl, ?_, ?_⟩ <;>
        simp [List.filter_cons, List.filter_append, hmut, hnot,
          isTrackerMutation, isNotification]
    · intro hprobe h
      obtain ⟨issue, hfound⟩ := h
      rw [runMonitor_down_found token sid tok deliver probeFn repo now issue htok hprobe hfound]
      refine ⟨rfl, ?_, ?_⟩ <;>
        simp [List.filter_cons, List.filter_append, hmut, hnot,
          isTrackerMutation, isNotification]
  · have htok' : truthy token = false := by simpa using htok
    rw [runMonitor_noToken token sid tok deliver probeFn repo now htok']
    exact ⟨fun _ _ => ⟨rfl, rfl, rfl⟩, fun _ _ => ⟨rfl, rfl, rfl⟩⟩

/-- Witness for C9 at concrete inputs: a healthy probe over an empty
tracker, and a failing probe while the canonical incident is already open,
both leave the tracker unchanged with no mutation and no notification in
the trace. -/
theorem c9_noop_quadrants_witness :
    ((runMonitor (some "ghp") (some "AC") (some "TOK") (fun _ => Except.ok "SM")
        (fun _ => some 200) [] 42).1 = [] ∧
      ((runMonitor (some "ghp") (some "AC") (some "TOK") (fun _ => Except.ok "SM")
        (fun _ => some 200) [] 42).2).filter isTrackerMutation = [] ∧
      ((runMonitor (some "ghp") (some "AC") (some "TOK") (fun _ => Except.ok "SM")
        (fun _ => some 200) [] 42).2).filter isNotification = []) ∧
    ((runMonitor (some "ghp") (some "AC") (some "TOK") (fun _ => Except.ok "SM")
        (fun _ => some 503)
        [⟨1, "Automated Alert: A Website Page is DOWN", "b", 7, true, []⟩] 42).1 =
        [⟨1, "Automated Alert: A Website Page is DOWN", "b", 7, true, []⟩] ∧
      ((runMonitor (some "ghp") (some "AC") (some "TOK") (fun _ => Except.ok "SM")
        (fun _ => some 503)
        [⟨1, "Automated Alert: A Website Page is DOWN", "b", 7, true, []⟩] 42).2).filter
          isTrackerMutation = [] ∧
      ((runMonitor (some "ghp") (some "AC") (some "TOK") (fun _ => Except.ok "SM")
        (fun _ => some 503)
        [⟨1, "Automated Alert: A Website Page is DOWN", "b", 7, true, []⟩] 42).2).filter
          isNotification = []) :=
  ⟨(c9_noop_quadrants (some "ghp") (some "AC") (some "TOK") (fun _ => Except.ok "SM")
      (fun _ => some 200) [] 42).1 (by decide) (by decide),
   (c9_noop_quadrants (some "ghp") (some "AC") (some "TOK") (fun _ => Except.ok "SM")
      (fun _ => some 503)
      [⟨1, "Automated Alert: A Website Page is DOWN", "b", 7, true, []⟩] 42).2 (by decide)
      ⟨⟨1, "Automated Alert: A Website Page is DOWN", "b", 7, true, []⟩, by decide⟩⟩

/-- C2: with a healthy probe and an open incident found by the title
lookup, the run closes exactly that incident after appending to it exactly
one resolution comment whose timestamp is the UTC recovery time (not
shifted); the trace holds exactly one tracker-comment and one tracker-close
mutation and exactly one "recovered" notification whose two displayed
timestamps are the UTC values shifted by +5 hours 30 minutes and whose
downtime string is `format_downtime (now - incident.createdAt)`. -/
theorem c2_recovery_transition (token sid tok : Option String)
    (deliver : String → Except String String) (probeFn : String → Option Nat)
    (repo : List Issue) (now : Nat) (issue : Issue)
    (htok : truthy token = true)
    (hprobe : (check_system_status probeFn WEBSITES_TO_CHECK).1.1 = true)
    (hfound : manage_downtime_issue repo = some issue)
    (_horder : issue.createdAt ≤ now) :
    (runMonitor token sid tok deliver probeFn repo now).1 =
      trackerCloseIssue (trackerAddComment repo issue.number (resolution_comment now))
        issue.number ∧
    ((runMonitor token sid tok deliver probeFn repo now).2).filter isTrackerMutation =
      [Call.addIssueComment issue.number (resolution_comment now),
        Call.closeIssue issue.number] ∧
    ((runMonitor token sid tok deliver probeFn repo now).2).filter isNotifyInvocation =
      [Call.notify (recovery_message issue.createdAt now)] ∧
    recovery_message issue.createdAt now =
      "✅ **System is UP!** ✅\n\n" ++
        "All monitored pages are now online.\n\n" ++
        "The system first went down at: *" ++
          fmtTimestamp (issue.createdAt + ist_offset) ++ " IST*\n" ++
        "The system recovered at: *" ++ fmtTimestamp (now + ist_offset) ++ " IST*\n\n" ++
        "Total Downtime: *" ++ format_downtime (now - issue.createdAt) ++ "*" ∧
    resolution_comment now =
      "Resolved: The system came back online at " ++ fmtTimestamp now ++ " UTC." := by
  rw [runMonitor_healthy_found token sid tok deliver probeFn repo now issue htok hprobe hfound]
  have hmut := check_trace_filter probeFn isTrackerMutation (fun u => rfl) WEBSITES_TO_CHECK
  have hnoti := check_trace_filter probeFn isNotifyInvocation (fun u => rfl) WEBSITES_TO_CHECK
  have hsmut := send_trace_filter sid tok deliver (recovery_message issue.createdAt now)
    isTrackerMutation (fun m => rfl)
  have hsnoti := send_trace_filter sid tok deliver (recovery_message issue.createdAt now)
    isNotifyInvocation (fun m => rfl)
  refine ⟨rfl, ?_, ?_, rfl, rfl⟩ <;>
    simp [List.filter_cons, List.filter_append, hmut, hnoti, hsmut, hsnoti,
      isTrackerMutation, isNotifyInvocation]

/-- Witness for C2 at a concrete input: one open canonical incident created
at epoch second 900000, all probes healthy, recovery at epoch second
1000000. -/
theorem c2_recovery_transition_witness :
    (runMonitor (some "ghp") (some "AC") (some "TOK") (fun _ => Except.ok "SM")
        (fun _ => some 200)
        [⟨1, "Automated Alert: A Website Page is DOWN", "b", 900000, true, []⟩] 1000000).1 =
      trackerCloseIssue
        (trackerAddComment
          [⟨1, "Automated Alert: A Website Page is DOWN", "b", 900000, true, []⟩] 1
          (resolution_comment 1000000)) 1 ∧
    ((runMonitor (some "ghp") (some "AC") (some "TOK") (fun _ => Except.ok "SM")
        (fun _ => some 200)
        [⟨1, "Automated Alert: A Website Page is DOWN", "b", 900000, true, []⟩]
        1000000).2).filter isTrackerMutation =
      [Call.addIssueComment 1 (resolution_comment 1000000), Call.closeIssue 1] ∧
    ((runMonitor (some "ghp") (some "AC") (some "TOK") (fun _ => Except.ok "SM")
        (fun _ => some 200)
        [⟨1, "Automated Alert: A Website Page is DOWN", "b", 900000, true, []⟩]
        1000000).2).filter isNotifyInvocation =
      [Call.notify (recovery_message 900000 1000000)] := by
  have h := c2_recovery_transition (some "ghp") (some "AC") (some "TOK")
    (fun _ => Except.ok "SM") (fun _ => some 200)
    [⟨1, "Automated Alert: A Website Page is DOWN", "b", 900000, true, []⟩] 1000000
    ⟨1, "Automated Alert: A Website Page is DOWN", "b", 900000, true, []⟩
    (by decide) (by decide) (by decide) (by decide)
  exact ⟨h.1, h.2.1, h.2.2.1⟩

/-- C3: with an unhealthy probe reporting failing target `t` and no open
incident found by the title lookup, the run creates exactly one incident
bearing the canonical title whose body names `t` and the UTC failure
timestamp, and the trace holds exactly one tracker-create mutation and
exactly one "down" notification naming `t` and the failure timestamp
shifted by +5 hours 30 minutes. -/
theorem c3_down_transition (token sid tok : Option String)
    (deliver : String → Except String String) (probeFn : String → Option Nat)
    (repo : List Issue) (now : Nat) (t : String)
    (htok : truthy token = true)
    (hprobe : (check_system_status probeFn WEBSITES_TO_CHECK).1 = (false, some t))
    (hnone : manage_downtime_issue repo = none) :
    (runMonitor token sid tok deliver probeFn repo now).1 =
      trackerCreateIssue repo DOWNTIME_ISSUE_TITLE (down_issue_body t now) now ∧
    ((runMonitor token sid tok deliver probeFn repo now).2).filter isTrackerMutation =
      [Call.createIssue DOWNTIME_ISSUE_TITLE (down_issue_body t now)] ∧
    ((runMonitor token sid tok deliver probeFn repo now).2).filter isNotifyInvocation =
      [Call.notify (down_message t now)] ∧
    down_message t now =
      "🚨 **Website Page is DOWN!** 🚨\n\n" ++
        "The following page is not responding:\n*" ++ t ++ "*\n\n" ++
        "Time of failure: *" ++ fmtTimestamp (now + ist_offset) ++ " IST*" ∧
    down_issue_body t now =
      "The monitor detected that the page `" ++ t ++ "` went down at " ++
        fmtTimestamp now ++ " UTC." := by
  have hflag : (check_system_status probeFn WEBSITES_TO_CHECK).1.1 = false := by
    rw [hprobe]
  have hurl : (check_system_status probeFn WEBSITES_TO_CHECK).1.2 = some t := by
    rw [hprobe]
  rw [runMonitor_down_none token sid tok deliver probeFn repo now htok hflag hnone]
  rw [hurl]
  have hmut := check_trace_filter probeFn isTrackerMutation (fun u => rfl) WEBSITES_TO_CHECK
  have hnoti := check_trace_filter probeFn isNotifyInvocation (fun u => rfl) WEBSITES_TO_CHECK
  have hsmut := send_trace_filter sid tok deliver (down_message t now)
    isTrackerMutation (fun m => rfl)
  have hsnoti := send_trace_filter sid tok deliver (down_message t now)
    isNotifyInvocation (fun m => rfl)
  refine ⟨rfl, ?_, ?_, rfl, rfl⟩ <;>
    simp [List.filter_cons, List.filter_append, hmut, hnoti, hsmut, hsnoti,
      isTrackerMutation, isNotifyInvocation, pyStr]

/-- Witness for C3 at a concrete input: every probe answers 503, so the
first configured URL is the failing target; the tracker is empty. -/
theorem c3_down_transition_witness :
    (runMonitor (some "ghp") (some "AC") (some "TOK") (fun _ => Except.ok "SM")
        (fun _ => some 503) [] 1234567).1 =
      trackerCreateIssue [] DOWNTIME_ISSUE_TITLE
        (down_issue_body "https://www.apollohospitals.com/" 1234567) 1234567 ∧
    ((runMonitor (some "ghp") (some "AC") (some "TOK") (fun _ => Except.ok "SM")
        (fun _ => some 503) [] 1234567).2).filter isTrackerMutation =
      [Call.createIssue DOWNTIME_ISSUE_TITLE
        (down_issue_body "https://www.apollohospitals.com/" 1234567)] ∧
    ((runMonitor (some "ghp") (some "AC") (some "TOK") (fun _ => Except.ok "SM")
        (fun _ => some 503) [] 1234567).2).filter isNotifyInvocation =
      [Call.notify (down_message "https://www.apollohospitals.com/" 1234567)] := by
  have h := c3_down_transition (some "ghp") (some "AC") (some "TOK")
    (fun _ => Except.ok "SM") (fun _ => some 503) [] 1234567
    "https://www.apollohospitals.com/" (by decide) (by decide) (by decide)
  exact ⟨h.1, h.2.1, h.2.2.1⟩

/-- C1: starting from any tracker state holding at most one open incident
with the canonical title, one full reconciliation run again leaves at most
one open incident with that title; a create mutation appears in the trace
only when the title lookup found none, and a run whose lookup found an open
incident never emits a create mutation. -/
theorem c1_single_open_incident (token sid tok : Option String)
    (deliver : String → Except String String) (probeFn : String → Option Nat)
    (repo : List Issue) (now : Nat)
    (hinv : countOpenDowntime repo ≤ 1) :
    countOpenDowntime (runMonitor token sid tok deliver probeFn repo now).1 ≤ 1 ∧
    ((∃ t b, Call.createIssue t b ∈ (runMonitor token sid tok deliver probeFn repo now).2) →
      manage_downtime_issue repo = none) ∧
    (∀ issue, manage_downtime_issue repo = some issue →
      ∀ t b, Call.createIssue t b ∉ (runMonitor token sid tok deliver probeFn repo now).2) := by
  have hmut := check_trace_filter probeFn isTrackerMutation (fun u => rfl) WEBSITES_TO_CHECK
  by_cases htok : truthy token = true
  · cases hprobe : (check_system_status probeFn WEBSITES_TO_CHECK).1.1 with
    | true =>
      cases hfound : manage_downtime_issue repo with
      | some issue =>
        rw [runMonitor_healthy_found token sid tok deliver probeFn repo now issue
          htok hprobe hfound]
        have hsmut := send_trace_filter sid tok deliver
          (recovery_message issue.createdAt now) isTrackerMutation (fun m => rfl)
        have hfil : (Call.getRepo :: (check_system_status probeFn WEBSITES_TO_CHECK).2 ++
              [Call.listIssues] ++
                [Call.notify (recovery_message issue.createdAt now)] ++
              (send_whatsapp_notification sid tok deliver
                (recovery_message issue.createdAt now)).2 ++
            [Call.addIssueComment issue.number (resolution_comment now),
              Call.closeIssue issue.number]).filter isTrackerMutation =
            [Call.addIssueComment issue.number (resolution_comment now),
              Call.closeIssue issue.number] := by
          simp [List.filter_cons, List.filter_append, hmut, hsmut, isTrackerMutation]
        refine ⟨?_, ?_, ?_⟩
        · exact Nat.le_trans (countOpen_close _ _)
            (by rw [countOpen_addComment]; exact hinv)
        · intro h
          obtain ⟨t, b, hmem⟩ := h
          have hin : Call.createIssue t b ∈ (Call.getRepo ::
              (check_system_status probeFn WEBSITES_TO_CHECK).2 ++ [Call.listIssues] ++
                [Call.notify (recovery_message issue.createdAt now)] ++
              (send_whatsapp_notification sid tok deliver
                (recovery_message issue.createdAt now)).2 ++
              [Call.addIssueComment issue.number (resolution_comment now),
                Call.closeIssue issue.number]).filter isTrackerMutation :=
            List.mem_filter.mpr ⟨hmem, rfl⟩
          rw [hfil] at hin
          simp at hin
        · intro issue' _ t b hmem
          have hin : Call.createIssue t b ∈ (Call.getRepo ::
              (check_system_status probeFn WEBSITES_TO_CHECK).2 ++ [Call.listIssues] ++
                [Call.notify (recovery_message issue.createdAt now)] ++
              (send_whatsapp_notification sid tok deliver
                (recovery_message issue.createdAt now)).2 ++
              [Call.addIssueComment issue.number (resolution_comment now),
                Call.closeIssue issue.number]).filter isTrackerMutation :=
            List.mem_filter.mpr ⟨hmem, rfl⟩
          rw [hfil] at hin
          simp at hin
      | none =>
        rw [runMonitor_healthy_none token sid tok deliver probeFn repo now htok hprobe hfound]
        refine ⟨hinv, fun _ => rfl, ?_⟩
        intro issue h
        exact absurd h (by simp)
    | false =>
      cases hfound : manage_downtime_issue repo with
      | some issue =>
        rw [runMonitor_down_found token sid tok deliver probeFn repo now issue
          htok hprobe hfound]
        have hfil : (Call.getRepo :: (check_system_status probeFn WEBSITES_TO_CHECK).2 ++
              [Call.listIssues]).filter isTrackerMutation = [] := by
          simp [List.filter_cons, List.filter_append, hmut, isTrackerMutation]
        refine ⟨hinv, ?_, ?_⟩
        · intro h
          obtain ⟨t, b, hmem⟩ := h
          have hin : Call.createIssue t b ∈ (Call.getRepo ::
              (check_system_status probeFn WEBSITES_TO_CHECK).2 ++
              [Call.listIssues]).filter isTrackerMutation :=
            List.mem_filter.mpr ⟨hmem, rfl⟩
          rw [hfil] at hin
          simp at hin
        · intro issue' _ t b hmem
          have hin : Call.createIssue t b ∈ (Call.getRepo ::
              (check_system_status probeFn WEBSITES_TO_CHECK).2 ++
              [Call.listIssues]).filter isTrackerMutation :=
            List.mem_filter.mpr ⟨hmem, rfl⟩
          rw [hfil] at hin
          simp at hin
      | none =>
        rw [runMonitor_down_none token sid tok deliver probeFn repo now htok hprobe hfound]
        refine ⟨?_, fun _ => rfl, ?_⟩
        · rw [countOpen_create]
          rw [manage_none_count repo hfound]
        · intro issue h
          exact absurd h (by simp)
  · have htok' : truthy token = false := by simpa using htok
    rw [runMonitor_noToken token sid tok deliver probeFn repo now htok']
    refine ⟨hinv, ?_, ?_⟩
    · intro h
      obtain ⟨t, b, hmem⟩ := h
      exact absurd hmem (List.not_mem_nil _)
    · intro issue _ t b hmem
      exact List.not_mem_nil _ hmem

/-- Witness for C1 at a concrete input: an empty tracker (zero open
incidents) and an unhealthy probe; after the run at most one open canonical
incident exists. -/
theorem c1_single_open_incident_witness :
    countOpenDowntime [] ≤ 1 ∧
    countOpenDowntime (runMonitor (some "ghp") (some "AC") (some "TOK")
      (fun _ => Except.ok "SM") (fun _ => none) [] 77).1 ≤ 1 :=
  ⟨by decide,
   (c1_single_open_incident (some "ghp") (some "AC") (some "TOK")
      (fun _ => Except.ok "SM") (fun _ => none) [] 77 (by decide)).1⟩
